import Mathlib

/-!
Shallow embedding of the feed service in `src/src/server.ts` together with the
schema and seed data in the database module (`src/unnamed/part_000`, `initDb`).

Modelling conventions, stated once here:

* The SQLite store is embedded as in-memory lists in table insertion order
  (row scan order).  `user` has no PRIMARY KEY; `post.id` and `comment.id` are
  `INT PRIMARY KEY`, so inserting a duplicate id raises a constraint error,
  which the request handlers catch and turn into a 500 response.
* Column values are modelled at the schema's types (`INT` ids as `Int`,
  `TEXT` columns as `String`); request bodies reaching the store are taken
  from this schema-typed domain.  The JavaScript-level request values are
  modelled by `JVal` for the two validation functions of the source file
  (`validateUserInput` and `validateAndSanitize`), which are embedded in full
  generality.
* `julianday` applied to a stored `created_at` string is an external SQLite
  computation; it is a parameter `jd : String → Option ℚ` of the feed
  pipeline, `none` meaning an unparseable timestamp (SQL `NULL`), and
  `julianday('now')` is a parameter `now : ℚ`.  `recency_score` is
  `now - jd created_at`; SQL arithmetic propagates `NULL`, so the composite
  score is `Option ℚ` with `none` ordered below every number, exactly the
  placement SQLite gives `NULL` under `ORDER BY ... DESC`.
* SQL `LIKE` is embedded with its `%` and `_` wildcards and its default
  ASCII-case-insensitive comparison.
* Inside the `ORDER BY` expression, SQLite resolves the bare name
  `comments_count` to the joined subquery column `c.comments_count` — `NULL`
  for a post with no comments — and not to the `COALESCE(..., 0)` output
  alias; `recency_score` and `relevance_score` have no underlying column and
  resolve to their alias expressions.  The embedded sort key `rowSortKey`
  reproduces this.  `ORDER BY (..) DESC` is embedded as a sort of the scanned
  rows by descending key; SQLite leaves the relative order of equal keys
  undefined, so the executable model fixes one admissible implementation (a
  stable insertion sort) and no theorem relies on the tie order.  `LIMIT n`
  is `List.take n`.
* The module-level `feedCache` `Map` and the database are one `ServerState`;
  `Map.set` is modelled by prepending the key/value pair and `Map.get` by the
  first matching entry, which is observationally the same for lookups.
* Express query parameters arrive as decimal strings and are compared against
  `INT`-affinity columns, so SQLite converts them numerically; the feed
  handler is therefore embedded over `Int` parameters (the `!user_id` guard
  of the handler cannot fire on a non-empty query string, so the 400 branch
  is outside the embedded domain).  An absent JSON field (such as `done` in a
  non-empty feed response) is modelled as `false` / `none`.
-/

namespace FeedSvc

/-- JavaScript request-body values as seen by the validators: numbers,
strings, booleans and null.  An absent (`undefined`) field is `Option.none`
one level up. -/
inductive JVal where
  | num (n : Int)
  | str (s : String)
  | jbool (b : Bool)
  | jnull
  deriving DecidableEq

/-- JavaScript truthiness on a present value: `0`, the empty string, `false`
and `null` are falsy. -/
def JVal.falsy : JVal → Bool
  | .num n => n == 0
  | .str s => s == ""
  | .jbool b => !b
  | .jnull => true

/-- Truthiness test `!data[field]` of the source: an absent field or a falsy
value both count as missing. -/
def jsFalsy : Option JVal → Bool
  | none => true
  | some v => v.falsy

/-- Embedding of `validateUserInput(data, requiredFields)` (first server
variant): return `"<field> is required"` for the first required field whose
value is absent or falsy, `null` otherwise. -/
def validateUserInput (data : String → Option JVal) : List String → Option String
  | [] => none
  | f :: rest =>
    if jsFalsy (data f) then some (f ++ " is required")
    else validateUserInput data rest

/-- Expected field types of `validateAndSanitize` (second server variant). -/
inductive FieldType where
  | string
  | number
  | boolean
  deriving DecidableEq

/-- White space as JavaScript's `String.prototype.trim` strips it (the
common ASCII white-space and no-break/BOM code points of the ECMA
WhiteSpace/LineTerminator productions). -/
def jsWhitespace (c : Char) : Bool :=
  c == ' ' || c == '\t' || c == '\n' || c == '\r' ||
  c == '\x0b' || c == '\x0c' || c == '\u00A0' || c == '\uFEFF'

/-- Embedding of `sanitizeInput`: `input.trim()`, removing leading and
trailing white space. -/
def sanitizeInput (s : String) : String :=
  ⟨((s.data.dropWhile jsWhitespace).reverse.dropWhile jsWhitespace).reverse⟩

/-- Type check of one field in `validateAndSanitize`.  In the `number` case
the source tests `Number.isFinite(value)`, which is true exactly on numbers
(model numbers are always finite). -/
def typeError (f : String) (t : FieldType) (v : JVal) : Option String :=
  match t, v with
  | .string, .str _ => none
  | .string, _ => some (f ++ " must be a string")
  | .number, .num _ => none
  | .number, _ => some (f ++ " must be a valid number")
  | .boolean, .jbool _ => none
  | .boolean, _ => some (f ++ " must be a boolean")

/-- Post-validation sanitization of one field: strings are trimmed, other
types pass through. -/
def sanitizeField (t : FieldType) (v : JVal) : JVal :=
  match t, v with
  | .string, .str s => .str (sanitizeInput s)
  | _, v => v

/-- Embedding of `validateAndSanitize(data, requiredFields)` (second server
variant): a field is missing only when `undefined` or `null`; otherwise it is
type-checked and sanitized.  On the first error the sanitized data is the
empty object. -/
def validateAndSanitize (data : String → Option JVal) :
    List (String × FieldType) → Option String × List (String × JVal)
  | [] => (none, [])
  | (f, t) :: rest =>
    match data f with
    | none => (some (f ++ " is required"), [])
    | some .jnull => (some (f ++ " is required"), [])
    | some v =>
      match typeError f t v with
      | some e => (some e, [])
      | none =>
        match validateAndSanitize data rest with
        | (some e, _) => (some e, [])
        | (none, sd) => (none, (f, sanitizeField t v) :: sd)

/-- ASCII lower-casing, the folding SQLite's default `LIKE` applies. -/
def asciiLower (c : Char) : Char :=
  if 'A' ≤ c ∧ c ≤ 'Z' then Char.ofNat (c.toNat + 32) else c

/-- SQL `LIKE` matching on character lists: `%` matches any (possibly empty)
substring, `_` any single character, and other characters compare
ASCII-case-insensitively (SQLite default, no `ESCAPE` clause). -/
def likeMatches : List Char → List Char → Bool
  | [], hs => hs.isEmpty
  | c :: ps, hs =>
    if c = '%' then
      hs.tails.any fun t => likeMatches ps t
    else
      match hs with
      | [] => false
      | h :: hs' => (c == '_' || asciiLower c == asciiLower h) && likeMatches ps hs'

/-- `s LIKE pat` for strings. -/
def sqlLike (pat s : String) : Bool := likeMatches pat.data s.data

/-- Row of the `post` table:
`post (id INT PRIMARY KEY, user_id INT, content TEXT, created_at TEXT)`. -/
structure Post where
  id : Int
  user_id : Int
  content : String
  created_at : String
  deriving DecidableEq

/-- Row of the `comment` table: `comment (id INT PRIMARY KEY, post_id INT,
user_id INT, content TEXT, created_at TEXT)`. -/
structure Comment where
  id : Int
  post_id : Int
  user_id : Int
  content : String
  created_at : String
  deriving DecidableEq

/-- The store: the three tables in insertion order.  `user (id INT, name
TEXT)` has no key constraint. -/
structure DB where
  users : List (Int × String)
  posts : List Post
  comments : List Comment
  deriving DecidableEq

/-- First-occurrence deduplication, the order in which SQL `DISTINCT`
streams rows of a scan. -/
def distinctFirst : List String → List String :=
  go []
where
  go (seen : List String) : List String → List String
    | [] => []
    | x :: xs => if x ∈ seen then go seen xs else x :: go (x :: seen) xs

/-- Embedding of `userInteractionsQuery`: the distinct contents of posts the
user wrote or commented on (`LEFT JOIN comment` + `WHERE p.user_id = ? OR
c.user_id = ?`, `DISTINCT p.content`), in post-scan order. -/
def interactedPosts (db : DB) (uid : Int) : List Post :=
  db.posts.filter fun p =>
    p.user_id == uid || db.comments.any fun c => c.post_id == p.id && c.user_id == uid

/-- `userKeywords`: the distinct interacted contents joined by a single
space (`rows.map(row => row.post_content).join(' ')`). -/
def userKeywords (db : DB) (uid : Int) : String :=
  String.intercalate " " (distinctFirst ((interactedPosts db uid).map Post.content))

/-- The bound pattern `` `%${userKeywords}%` ``. -/
def likePattern (kw : String) : String := "%" ++ kw ++ "%"

/-- `COALESCE(c.comments_count, 0)` after the grouped `LEFT JOIN`: the number
of comments whose `post_id` matches. -/
def commentsCount (db : DB) (pid : Int) : Nat :=
  (db.comments.filter fun c => c.post_id == pid).length

/-- One row produced by `feedQuery`'s `SELECT`: `p.*`, `comments_count`,
`recency_score` and `relevance_score`. -/
structure FeedRow where
  post : Post
  comments_count : Nat
  recency_score : Option ℚ
  relevance_score : ℚ
  deriving DecidableEq

/-- The `SELECT` list of `feedQuery` for one post `p`: `comments_count` from
the grouped join, `recency_score = julianday('now') - julianday(p.created_at)`
(`NULL` when the timestamp does not parse), and `relevance_score = CASE WHEN
p.content LIKE ? THEN 1.5 ELSE 1 END`. -/
def mkFeedRow (db : DB) (jd : String → Option ℚ) (now : ℚ) (pat : String) (p : Post) : FeedRow :=
  { post := p
    comments_count := commentsCount db p.id
    recency_score := (jd p.created_at).map fun j => now - j
    relevance_score := if sqlLike pat p.content then 3 / 2 else 1 }

/-- The `FROM`/`WHERE` part of `feedQuery`: posts in scan order with
`p.content LIKE ?` (the same pattern as the relevance `CASE`) and
`p.id > ?`. -/
def fetchCandidates (db : DB) (jd : String → Option ℚ) (now : ℚ) (pat : String)
    (cursor : Int) : List FeedRow :=
  (db.posts.filter fun p => sqlLike pat p.content && decide (cursor < p.id)).map
    (mkFeedRow db jd now pat)

/-- The key of `ORDER BY (comments_count * 1.2 + recency_score * 0.8 +
relevance_score) DESC`.  Inside this expression SQLite resolves the bare
name `comments_count` to the joined subquery column `c.comments_count`,
which is `NULL` for a post with no comments — not to the `COALESCE(..., 0)`
output alias that `FeedRow.comments_count` records (the group's `COUNT(*)`
is at least 1 whenever the group exists, so the column is `NULL` exactly
when the recorded count is 0).  `recency_score` and `relevance_score`
resolve to their alias expressions.  SQL arithmetic propagates `NULL`, so
the key is `NULL` when the post has no comments or its timestamp does not
parse. -/
def rowSortKey (r : FeedRow) : Option ℚ :=
  match (if r.comments_count = 0 then none else some (r.comments_count : ℚ)),
      r.recency_score with
  | some cnt, some j => some (cnt * (6 / 5) + j * (4 / 5) + r.relevance_score)
  | _, _ => none

/-- Comparison of sort keys as SQLite orders them: `NULL` below every
number. -/
def scoreLe : Option ℚ → Option ℚ → Bool
  | none, _ => true
  | some _, none => false
  | some a, some b => decide (a ≤ b)

/-- `a` may come before `b` under the query's `ORDER BY ... DESC`: `a`'s
key is at least `b`'s. -/
def feedGe (a b : FeedRow) : Prop := scoreLe (rowSortKey b) (rowSortKey a) = true

instance : DecidableRel feedGe := fun a b =>
  inferInstanceAs (Decidable (scoreLe (rowSortKey b) (rowSortKey a) = true))

/-- The query's `ORDER BY ... DESC` over the scanned rows: a sort by
descending `rowSortKey`.  SQLite leaves the relative order of equal keys
undefined; the executable model fixes one admissible implementation (a
stable insertion sort), and no theorem relies on the tie order. -/
def rankCandidates (l : List FeedRow) : List FeedRow := l.insertionSort feedGe

/-- The score exactly as claim C2 words it: `comments_count * 1.2 +
recency_score * 0.8 + relevance_score` with `comments_count` read as the
`COALESCE(..., 0)` response column.  This definition follows the claim's
words, not the source, and exists only to be compared with `rowSortKey`,
the key the program actually sorts by. -/
def specScore (r : FeedRow) : Option ℚ :=
  r.recency_score.map fun j => (r.comments_count : ℚ) * (6 / 5) + j * (4 / 5) + r.relevance_score

/-- The full `feedQuery`: scan, rank, `LIMIT ?`. -/
def rankFeed (db : DB) (jd : String → Option ℚ) (now : ℚ) (pat : String)
    (cursor : Int) (bs : Nat) : List FeedRow :=
  (rankCandidates (fetchCandidates db jd now pat cursor)).take bs

/-- Body of a `GET /feed` 200 response.  `start_after_id` is the
`start_after_id` field of the non-empty-batch response; `done` is the
`done: true` flag of the empty-batch response (`false` = field absent). -/
structure FeedResponse where
  feed : List FeedRow
  start_after_id : Option Int
  done : Bool
  deriving DecidableEq

/-- The ranked, limited batch the `GET /feed` handler computes on a cache
miss: the pattern is built from the user's interactions and `feedQuery` is
run with it. -/
def feedBatch (db : DB) (jd : String → Option ℚ) (now : ℚ)
    (uid cursor : Int) (bs : Nat) : List FeedRow :=
  rankFeed db jd now (likePattern (userKeywords db uid)) cursor bs

/-- The cache-miss response of the `GET /feed` handler: either report `done`
on an empty batch or attach the last returned post id as the next cursor
(`feed[feed.length - 1].id`). -/
def buildFeedResponse (db : DB) (jd : String → Option ℚ) (now : ℚ)
    (uid cursor : Int) (bs : Nat) : FeedResponse :=
  if (feedBatch db jd now uid cursor bs).isEmpty then
    { feed := feedBatch db jd now uid cursor bs, start_after_id := none, done := true }
  else
    { feed := feedBatch db jd now uid cursor bs
      start_after_id := (feedBatch db jd now uid cursor bs).getLast?.map fun r => r.post.id
      done := false }

/-- Whole-process state: the store plus the module-level `feedCache` map. -/
structure ServerState where
  db : DB
  cache : List (String × FeedResponse)
  deriving DecidableEq

/-- The cache key `` `${user_id}-${start_after_id}-${batch_size}` ``. -/
def cacheKey (uid cursor : Int) (bs : Nat) : String :=
  toString uid ++ "-" ++ toString cursor ++ "-" ++ toString bs

/-- The `GET /feed` handler: serve a cache hit unchanged, otherwise compute
the response, cache it (also when empty) and return it. -/
def getFeed (st : ServerState) (jd : String → Option ℚ) (now : ℚ)
    (uid cursor : Int) (bs : Nat) : FeedResponse × ServerState :=
  match st.cache.lookup (cacheKey uid cursor bs) with
  | some r => (r, st)
  | none =>
    (buildFeedResponse st.db jd now uid cursor bs,
     { st with cache :=
        (cacheKey uid cursor bs, buildFeedResponse st.db jd now uid cursor bs) :: st.cache })

/-- Status and body text (message or error) of a create-endpoint response. -/
structure CreateResp where
  status : Nat
  body : String
  deriving DecidableEq

/-- The `POST /users` request body `{id, name}` as the validator sees it. -/
def userBodyJ (id : Int) (name : String) : String → Option JVal := fun f =>
  if f = "id" then some (.num id)
  else if f = "name" then some (.str name)
  else none

/-- The `POST /users` handler (first variant): validate, then
`INSERT INTO user`; the `user` table has no constraints, so the insert always
succeeds and appends a row. -/
def createUser (st : ServerState) (id : Int) (name : String) : CreateResp × ServerState :=
  match validateUserInput (userBodyJ id name) ["id", "name"] with
  | some e => ({ status := 400, body := e }, st)
  | none =>
    ({ status := 201, body := "User added successfully" },
     { st with db := { st.db with users := st.db.users ++ [(id, name)] } })

/-- The `POST /posts` request body `{id, user_id, content}`. -/
def postBodyJ (id user_id : Int) (content : String) : String → Option JVal := fun f =>
  if f = "id" then some (.num id)
  else if f = "user_id" then some (.num user_id)
  else if f = "content" then some (.str content)
  else none

/-- The `POST /posts` handler (first variant): validate, check the author
exists (`SELECT id FROM user WHERE id = ?`, else 404), then insert with a
fresh `created_at` (`new Date().toISOString()`, passed as `createdAt`).  A
duplicate primary key makes the insert reject, caught as a 500. -/
def createPost (st : ServerState) (id user_id : Int) (content createdAt : String) :
    CreateResp × ServerState :=
  match validateUserInput (postBodyJ id user_id content) ["id", "user_id", "content"] with
  | some e => ({ status := 400, body := e }, st)
  | none =>
    if st.db.users.any fun u => u.1 == user_id then
      if st.db.posts.any fun p => p.id == id then
        ({ status := 500, body := "Failed to create post" }, st)
      else
        ({ status := 201, body := "Post created successfully" },
         { st with db := { st.db with
            posts := st.db.posts ++ [⟨id, user_id, content, createdAt⟩] } })
    else
      ({ status := 404, body := "User not found" }, st)

/-- The `POST /comments` request body `{id, post_id, user_id, content}`. -/
def commentBodyJ (id post_id user_id : Int) (content : String) : String → Option JVal := fun f =>
  if f = "id" then some (.num id)
  else if f = "post_id" then some (.num post_id)
  else if f = "user_id" then some (.num user_id)
  else if f = "content" then some (.str content)
  else none

/-- The `POST /comments` handler (first variant): validate, then insert
directly — no existence check on `post_id` or `user_id`.  Only a duplicate
primary key makes the insert reject, caught as a 500. -/
def createComment (st : ServerState) (id post_id user_id : Int)
    (content createdAt : String) : CreateResp × ServerState :=
  match validateUserInput (commentBodyJ id post_id user_id content)
      ["id", "post_id", "user_id", "content"] with
  | some e => ({ status := 400, body := e }, st)
  | none =>
    if st.db.comments.any fun c => c.id == id then
      ({ status := 500, body := "Failed to create comment" }, st)
    else
      ({ status := 201, body := "Comment created successfully" },
       { st with db := { st.db with
          comments := st.db.comments ++ [⟨id, post_id, user_id, content, createdAt⟩] } })

/-- Modelled from the spec: the repository has no user-read endpoint, so
"fetching that user" (spec §8) is the store lookup `SELECT ... FROM user
WHERE id = ?` as `db.get` resolves it — the first matching row in insertion
order (the same lookup the `POST /posts` handler uses for its existence
check) — projected to the `name` column. -/
def getUser (db : DB) (id : Int) : Option String :=
  (db.users.find? fun u => u.1 == id).map fun u => u.2

/-- One write-path request, with the `new Date().toISOString()` timestamp of
post/comment creation as data. -/
inductive CreateOp where
  | mkUser (id : Int) (name : String)
  | mkPost (id user_id : Int) (content createdAt : String)
  | mkComment (id post_id user_id : Int) (content createdAt : String)

/-- State effect of one write-path request. -/
def applyOp (st : ServerState) : CreateOp → ServerState
  | .mkUser i n => (createUser st i n).2
  | .mkPost i u c t => (createPost st i u c t).2
  | .mkComment i p u c t => (createComment st i p u c t).2

/-- State effect of a sequence of write-path requests. -/
def applyOps (st : ServerState) (ops : List CreateOp) : ServerState :=
  ops.foldl applyOp st

/-- User store of the second server variant (its validated `id` and `name`
are strings by construction). -/
structure DB2 where
  users : List (String × String)
  deriving DecidableEq

/-- Field extraction `validationResult.sanitizedData.<f>` for a
string-typed field. -/
def getSanitized (sd : List (String × JVal)) (f : String) : String :=
  match sd.lookup f with
  | some (.str s) => s
  | _ => ""

/-- The `POST /users` handler of the second server variant, which validates
with `validateAndSanitize` instead of `validateUserInput`. -/
def createUserV2 (st : DB2) (body : String → Option JVal) : CreateResp × DB2 :=
  match validateAndSanitize body [("id", .string), ("name", .string)] with
  | (some e, _) => ({ status := 400, body := e }, st)
  | (none, sd) =>
    ({ status := 201, body := "User added successfully" },
     { users := st.users ++ [(getSanitized sd "id", getSanitized sd "name")] })

/-- The deterministic seed of `initDb`, loops unrolled: users `0..9`, posts
`0..4` with author `i % 10` and content `Post content i`, comments `0..9` on
post `i % 5` by user `i % 10` with content `Comment content i`.  The
`created_at` values are the `new Date().toISOString()` strings taken at
startup, abstracted as `tp i` / `tc i`. -/
def seedDB (tp tc : Nat → String) : DB where
  users := [(0, "User0"), (1, "User1"), (2, "User2"), (3, "User3"), (4, "User4"),
            (5, "User5"), (6, "User6"), (7, "User7"), (8, "User8"), (9, "User9")]
  posts := [⟨0, 0, "Post content 0", tp 0⟩, ⟨1, 1, "Post content 1", tp 1⟩,
            ⟨2, 2, "Post content 2", tp 2⟩, ⟨3, 3, "Post content 3", tp 3⟩,
            ⟨4, 4, "Post content 4", tp 4⟩]
  comments := [⟨0, 0, 0, "Comment content 0", tc 0⟩, ⟨1, 1, 1, "Comment content 1", tc 1⟩,
               ⟨2, 2, 2, "Comment content 2", tc 2⟩, ⟨3, 3, 3, "Comment content 3", tc 3⟩,
               ⟨4, 4, 4, "Comment content 4", tc 4⟩, ⟨5, 0, 5, "Comment content 5", tc 5⟩,
               ⟨6, 1, 6, "Comment content 6", tc 6⟩, ⟨7, 2, 7, "Comment content 7", tc 7⟩,
               ⟨8, 3, 8, "Comment content 8", tc 8⟩, ⟨9, 4, 9, "Comment content 9", tc 9⟩]

/-- The response-shape invariant of a feed response: a next cursor is present
exactly when the batch is non-empty, exactly when `done` is not set, and the
cursor is the id of the last returned entry. -/
def RespOK (r : FeedResponse) : Prop :=
  (r.start_after_id.isSome ↔ r.done = false) ∧
  (r.done = false ↔ r.feed ≠ []) ∧
  ∀ h : r.feed ≠ [], r.start_after_id = some (r.feed.getLast h).post.id

/-- Every cached response satisfies the response-shape invariant. -/
def CacheOK (st : ServerState) : Prop :=
  ∀ k r, (k, r) ∈ st.cache → RespOK r

/-! Helper lemmas about the score order and the ranking. -/

theorem scoreLe_total (x y : Option ℚ) : (scoreLe x y || scoreLe y x) = true := by
  cases x <;> cases y <;> simp [scoreLe, le_total]

theorem scoreLe_trans {x y z : Option ℚ} (h1 : scoreLe x y = true)
    (h2 : scoreLe y z = true) : scoreLe x z = true := by
  cases x <;> cases y <;> cases z <;> simp_all [scoreLe]
  exact le_trans h1 h2

instance : IsTotal FeedRow feedGe :=
  ⟨fun a b => by
    have h := scoreLe_total (rowSortKey b) (rowSortKey a)
    simp only [Bool.or_eq_true] at h
    exact h⟩

instance : IsTrans FeedRow feedGe :=
  ⟨fun _ _ _ hab hbc => scoreLe_trans hbc hab⟩

theorem rankCandidates_pairwise (l : List FeedRow) :
    (rankCandidates l).Pairwise feedGe :=
  List.sorted_insertionSort feedGe l

theorem rankCandidates_perm (l : List FeedRow) : List.Perm (rankCandidates l) l :=
  List.perm_insertionSort feedGe l

theorem buildFeedResponse_feed (db : DB) (jd : String → Option ℚ) (now : ℚ)
    (uid cursor : Int) (bs : Nat) :
    (buildFeedResponse db jd now uid cursor bs).feed = feedBatch db jd now uid cursor bs := by
  unfold buildFeedResponse
  split <;> rfl

theorem respOK_build (db : DB) (jd : String → Option ℚ) (now : ℚ)
    (uid cursor : Int) (bs : Nat) :
    RespOK (buildFeedResponse db jd now uid cursor bs) := by
  by_cases h : feedBatch db jd now uid cursor bs = []
  · unfold buildFeedResponse RespOK
    rw [if_pos (by simp [h])]
    refine ⟨?_, ?_, ?_⟩ <;> simp [h]
  · unfold buildFeedResponse RespOK
    rw [if_neg (by simp [h])]
    refine ⟨?_, ?_, ?_⟩
    · simp [List.getLast?_eq_getLast _ h]
    · simp [h]
    · intro h'
      simp [List.getLast?_eq_getLast _ h]

/-! Helper lemmas about the write paths and the cache. -/

theorem createUser_cache (st : ServerState) (id : Int) (name : String) :
    (createUser st id name).2.cache = st.cache := by
  unfold createUser
  split <;> rfl

theorem createPost_cache (st : ServerState) (id user_id : Int)
    (content createdAt : String) :
    (createPost st id user_id content createdAt).2.cache = st.cache := by
  unfold createPost
  split
  · rfl
  · split
    · split <;> rfl
    · rfl

theorem createComment_cache (st : ServerState) (id post_id user_id : Int)
    (content createdAt : String) :
    (createComment st id post_id user_id content createdAt).2.cache = st.cache := by
  unfold createComment
  split
  · rfl
  · split <;> rfl

theorem applyOp_cache (st : ServerState) (op : CreateOp) :
    (applyOp st op).cache = st.cache := by
  cases op with
  | mkUser i n => exact createUser_cache st i n
  | mkPost i u c t => exact createPost_cache st i u c t
  | mkComment i p u c t => exact createComment_cache st i p u c t

theorem applyOps_cache (ops : List CreateOp) (st : ServerState) :
    (applyOps st ops).cache = st.cache := by
  induction ops generalizing st with
  | nil => rfl
  | cons op ops ih =>
    show (applyOps (applyOp st op) ops).cache = st.cache
    rw [ih, applyOp_cache]

theorem getFeed_snd_lookup (st : ServerState) (jd : String → Option ℚ) (now : ℚ)
    (uid cursor : Int) (bs : Nat) :
    ((getFeed st jd now uid cursor bs).2.cache.lookup (cacheKey uid cursor bs))
      = some (getFeed st jd now uid cursor bs).1 := by
  unfold getFeed
  cases h : st.cache.lookup (cacheKey uid cursor bs) with
  | some r => simpa using h
  | none => simp

/-! Helper lemmas about validation. -/

theorem validateUserInput_falsy (data : String → Option JVal) (pre : List String)
    (f : String) (rest : List String)
    (hpre : ∀ g ∈ pre, jsFalsy (data g) = false) (hf : jsFalsy (data f) = true) :
    validateUserInput data (pre ++ f :: rest) = some (f ++ " is required") := by
  induction pre with
  | nil => simp [validateUserInput, hf]
  | cons g pre ih =>
    have hg : jsFalsy (data g) = false := hpre g (by simp)
    simp only [List.cons_append, validateUserInput, hg]
    simpa using ih fun g' hg' => hpre g' (by simp [hg'])

theorem createUser_validation_error (st : ServerState) (id : Int) (name : String)
    (e : String) (h : validateUserInput (userBodyJ id name) ["id", "name"] = some e) :
    createUser st id name = (⟨400, e⟩, st) := by
  unfold createUser
  rw [h]

theorem createPost_validation_error (st : ServerState) (id user_id : Int)
    (content createdAt : String) (e : String)
    (h : validateUserInput (postBodyJ id user_id content) ["id", "user_id", "content"] = some e) :
    createPost st id user_id content createdAt = (⟨400, e⟩, st) := by
  unfold createPost
  rw [h]

theorem createComment_validation_error (st : ServerState) (id post_id user_id : Int)
    (content createdAt : String) (e : String)
    (h : validateUserInput (commentBodyJ id post_id user_id content)
          ["id", "post_id", "user_id", "content"] = some e) :
    createComment st id post_id user_id content createdAt = (⟨400, e⟩, st) := by
  unfold createComment
  rw [h]

/-! Helper lemmas about `LIKE` and the keyword pattern. -/

theorem likeMatches_single_pct (hs : List Char) : likeMatches ['%'] hs = true := by
  induction hs with
  | nil => rfl
  | cons h t ih =>
    show ((h :: t).tails.any fun t' => likeMatches [] t') = true
    rw [List.tails_cons]
    simp only [List.any_cons]
    rw [show (t.tails.any fun t' => likeMatches [] t') = likeMatches ['%'] t from rfl, ih]
    simp

theorem sqlLike_empty_pattern (s : String) : sqlLike (likePattern "") s = true := by
  show likeMatches ['%', '%'] s.data = true
  show (s.data.tails.any fun t => likeMatches ['%'] t) = true
  cases s.data with
  | nil => rfl
  | cons h t =>
    rw [List.tails_cons]
    simp [likeMatches_single_pct]

theorem userKeywords_of_no_interactions (db : DB) (uid : Int)
    (hp : ∀ p ∈ db.posts, p.user_id ≠ uid)
    (hc : ∀ c ∈ db.comments, c.user_id ≠ uid) :
    userKeywords db uid = "" := by
  have hip : interactedPosts db uid = [] := by
    unfold interactedPosts
    rw [List.filter_eq_nil_iff]
    intro p hpmem
    have h1 : (p.user_id == uid) = false := by
      simpa using hp p hpmem
    have h2 : (db.comments.any fun c => c.post_id == p.id && c.user_id == uid) = false := by
      rw [List.any_eq_false]
      intro c hcmem
      simp [hc c hcmem]
    simp [h1, h2]
  unfold userKeywords
  rw [hip]
  rfl

/-! Helper lemmas about membership in the batch and user lookup. -/

theorem mem_fetchCandidates_relevance {db : DB} {jd : String → Option ℚ} {now : ℚ}
    {pat : String} {cursor : Int} {r : FeedRow}
    (h : r ∈ fetchCandidates db jd now pat cursor) : r.relevance_score = 3 / 2 := by
  unfold fetchCandidates at h
  rcases List.mem_map.mp h with ⟨p, hp, rfl⟩
  have hlike : sqlLike pat p.content = true := by
    have hand := (List.mem_filter.mp hp).2
    rw [Bool.and_eq_true] at hand
    exact hand.1
  simp [mkFeedRow, hlike]

theorem mem_feed_mem_candidates {db : DB} {jd : String → Option ℚ} {now : ℚ}
    {uid cursor : Int} {bs : Nat} {r : FeedRow}
    (h : r ∈ (buildFeedResponse db jd now uid cursor bs).feed) :
    r ∈ fetchCandidates db jd now (likePattern (userKeywords db uid)) cursor := by
  rw [buildFeedResponse_feed] at h
  unfold feedBatch rankFeed at h
  have h1 : r ∈ rankCandidates
      (fetchCandidates db jd now (likePattern (userKeywords db uid)) cursor) :=
    (List.take_sublist _ _).subset h
  exact (rankCandidates_perm _).subset h1

theorem getFeed_fst_of_lookup {st : ServerState} {jd : String → Option ℚ} {now : ℚ}
    {uid cursor : Int} {bs : Nat} {r : FeedResponse}
    (h : st.cache.lookup (cacheKey uid cursor bs) = some r) :
    (getFeed st jd now uid cursor bs).1 = r := by
  unfold getFeed
  rw [h]

theorem getUser_append_fresh (users : List (Int × String)) (posts : List Post)
    (comments : List Comment) (id : Int) (name : String)
    (hfresh : ∀ u ∈ users, u.1 ≠ id) :
    getUser ⟨users ++ [(id, name)], posts, comments⟩ id = some name := by
  unfold getUser
  have h1 : (users.find? fun u => u.1 == id) = none := by
    rw [List.find?_eq_none]
    intro u hu
    simp [hfresh u hu]
  simp [List.find?_append, h1]

theorem getUser_append_keeps (users : List (Int × String)) (posts posts' : List Post)
    (comments comments' : List Comment) (more : List (Int × String)) (id : Int)
    (name0 : String) (h : getUser ⟨users, posts, comments⟩ id = some name0) :
    getUser ⟨users ++ more, posts', comments'⟩ id = some name0 := by
  unfold getUser at h ⊢
  rcases Option.map_eq_some'.mp h with ⟨u, hu, hname⟩
  rw [List.find?_append, hu]
  simp [hname]

/-! The claims. -/

/-- C1: the claim asserts that with the deterministic seed data, the response
to `GET /feed?user_id=0` with default parameters (`batch_size = 20`,
`start_after_id = 0`) includes post 0 with a `relevance_score` contribution of
1.5 and non-zero `comments_count` for commented posts.  The program does not
satisfy it: user 0's interaction pattern is `%Post content 0%`, post 0 itself
is excluded by the strict cursor condition `p.id > 0`, no other seeded post
contains that pattern, and so the handler answers with the empty feed and
`done: true`, whatever the seeded timestamps and the clock are. -/
theorem c1_seed_feed_is_empty (tp tc : Nat → String) (jd : String → Option ℚ) (now : ℚ) :
    userKeywords (seedDB tp tc) 0 = "Post content 0" ∧
    (getFeed ⟨seedDB tp tc, []⟩ jd now 0 0 20).1 = ⟨[], none, true⟩ :=
  ⟨rfl, rfl⟩

/-- Counterexample to C2 as stated: the batch is not ordered descending by
the claim's formula `comments_count * 1.2 + recency_score * 0.8 +
relevance_score` (with `comments_count` the COALESCE-0 response column).  In
the `ORDER BY` expression `comments_count` resolves to the `NULL`-able
subquery column, so an old post with no comments has sort key `NULL` and is
placed below a fresh commented post, although the claim's formula gives the
old post a far higher score (7201.5 against 3.5): the returned batch lists
the low-scored row first. -/
theorem c2_not_sorted_by_claimed_formula :
    (buildFeedResponse
        ⟨[], [⟨1, 1, "a", "told"⟩, ⟨2, 1, "b", "tnew"⟩], [⟨1, 2, 1, "c", "tc"⟩]⟩
        (fun s => if s = "told" then some 0 else if s = "tnew" then some 8999 else none)
        9000 7 0 20).feed
      = [⟨⟨2, 1, "b", "tnew"⟩, 1, some (9000 - 8999), 3 / 2⟩,
         ⟨⟨1, 1, "a", "told"⟩, 0, some (9000 - 0), 3 / 2⟩] ∧
    ¬ List.Pairwise (fun a b => scoreLe (specScore b) (specScore a) = true)
        [(⟨⟨2, 1, "b", "tnew"⟩, 1, some (9000 - 8999), 3 / 2⟩ : FeedRow),
         ⟨⟨1, 1, "a", "told"⟩, 0, some (9000 - 0), 3 / 2⟩] := by
  refine ⟨rfl, fun hp => ?_⟩
  have h := List.rel_of_pairwise_cons hp (List.mem_singleton.mpr rfl)
  simp only [specScore, scoreLe, Option.map_some', decide_eq_true_eq] at h
  norm_num at h

/-- C2 amended: for every feed request, the returned batch is ordered
descending by the key the query actually computes — `NULL` (below every
number) when the post has no comments or its timestamp does not parse, and
otherwise `comments_count * 1.2 + recency_score * 0.8 + relevance_score` —
and it is a `batch_size` prefix of some reordering of the unranked candidate
fetch.  SQLite leaves the relative order of equal keys undefined, so the
original claim's stability conjunct is not a property the code
establishes. -/
theorem c2_feed_sorted_by_real_key (db : DB) (jd : String → Option ℚ) (now : ℚ)
    (uid cursor : Int) (bs : Nat) :
    (buildFeedResponse db jd now uid cursor bs).feed.Pairwise feedGe ∧
    ∃ ranked : List FeedRow,
      List.Perm ranked (fetchCandidates db jd now (likePattern (userKeywords db uid)) cursor) ∧
      (buildFeedResponse db jd now uid cursor bs).feed = ranked.take bs := by
  rw [buildFeedResponse_feed]
  unfold feedBatch rankFeed
  exact ⟨(rankCandidates_pairwise _).sublist (List.take_sublist _ _),
    rankCandidates _, rankCandidates_perm _, rfl⟩

/-- C3: for every feed response produced from a state whose cache holds only
well-formed responses, the response satisfies the cursor invariant —
`start_after_id` is present iff `done` is false iff `feed` is non-empty, and
a non-empty batch's cursor is the id of its last ranked entry — and the
resulting state again holds only well-formed responses. -/
theorem c3_cursor_invariant (st : ServerState) (jd : String → Option ℚ) (now : ℚ)
    (uid cursor : Int) (bs : Nat) (h : CacheOK st) :
    RespOK (getFeed st jd now uid cursor bs).1 ∧
    CacheOK (getFeed st jd now uid cursor bs).2 := by
  unfold getFeed
  cases hl : st.cache.lookup (cacheKey uid cursor bs) with
  | some r =>
    rcases List.lookup_eq_some_iff.mp hl with ⟨l₁, l₂, hsplit, -⟩
    have hmem : (cacheKey uid cursor bs, r) ∈ st.cache := by
      rw [hsplit]
      simp
    exact ⟨h _ r hmem, h⟩
  | none =>
    refine ⟨respOK_build st.db jd now uid cursor bs, ?_⟩
    intro k r hm
    rcases List.mem_cons.mp hm with heq | htail
    · cases heq
      exact respOK_build st.db jd now uid cursor bs
    · exact h k r htail

/-- Closed witness for C3: the invariant holds for a feed response computed
from the empty store with an empty cache. -/
theorem c3_cursor_invariant_witness :
    CacheOK ⟨⟨[], [], []⟩, []⟩ ∧
    RespOK (getFeed ⟨⟨[], [], []⟩, []⟩ (fun _ => none) 0 0 0 20).1 :=
  ⟨fun _ _ hm => absurd hm (by simp),
   (c3_cursor_invariant ⟨⟨[], [], []⟩, []⟩ (fun _ => none) 0 0 0 20
      (fun _ _ hm => absurd hm (by simp))).1⟩

/-- C4: two identical feed requests return identical bodies even when any
sequence of create requests (users, posts, comments) runs in between and the
clock moves, because the first response is cached under the request key and
the write paths never touch the feed cache. -/
theorem c4_cache_staleness (st : ServerState) (jd : String → Option ℚ)
    (now1 now2 : ℚ) (uid cursor : Int) (bs : Nat) (ops : List CreateOp) :
    (getFeed (applyOps (getFeed st jd now1 uid cursor bs).2 ops) jd now2 uid cursor bs).1
      = (getFeed st jd now1 uid cursor bs).1 ∧
    ∀ (st' : ServerState) (op : CreateOp), (applyOp st' op).cache = st'.cache := by
  refine ⟨?_, applyOp_cache⟩
  apply getFeed_fst_of_lookup
  rw [applyOps_cache]
  exact getFeed_snd_lookup st jd now1 uid cursor bs

/-- C5: for a user with no authored posts and no comments the keyword string
is empty, the empty pattern `%%` matches every string, and the candidate
fetch therefore returns every post with id above the cursor — the filter
imposes no content restriction. -/
theorem c5_empty_profile_matches_all (db : DB) (jd : String → Option ℚ) (now : ℚ)
    (uid cursor : Int)
    (hp : ∀ p ∈ db.posts, p.user_id ≠ uid)
    (hc : ∀ c ∈ db.comments, c.user_id ≠ uid) :
    userKeywords db uid = "" ∧
    (∀ s : String, sqlLike (likePattern "") s = true) ∧
    fetchCandidates db jd now (likePattern (userKeywords db uid)) cursor
      = (db.posts.filter fun p => decide (cursor < p.id)).map
          (mkFeedRow db jd now (likePattern (userKeywords db uid))) := by
  have hkw := userKeywords_of_no_interactions db uid hp hc
  refine ⟨hkw, sqlLike_empty_pattern, ?_⟩
  unfold fetchCandidates
  congr 1
  apply List.filter_congr
  intro p _
  rw [hkw]
  simp [sqlLike_empty_pattern]

/-- Closed witness for C5: a user who never posted or commented gets the one
existing post (id 1 > cursor 0) as candidate although its content shares
nothing with the user. -/
theorem c5_empty_profile_matches_all_witness :
    fetchCandidates ⟨[], [⟨1, 1, "x", "t"⟩], []⟩ (fun _ => none) 0
        (likePattern (userKeywords ⟨[], [⟨1, 1, "x", "t"⟩], []⟩ 2)) 0
      = ([⟨1, 1, "x", "t"⟩].filter fun p => decide ((0 : Int) < p.id)).map
          (mkFeedRow ⟨[], [⟨1, 1, "x", "t"⟩], []⟩ (fun _ => none) 0
            (likePattern (userKeywords ⟨[], [⟨1, 1, "x", "t"⟩], []⟩ 2))) :=
  (c5_empty_profile_matches_all ⟨[], [⟨1, 1, "x", "t"⟩], []⟩ (fun _ => none) 0 2 0
    (by decide) (by decide)).2.2

/-- C6: the claim says a post with an unparseable stored `created_at` makes
the feed request fail with a `DataIntegrityError` surfaced as a 500.  The
program has no such check: evaluated on a store holding one post whose
timestamp does not parse (`jd` returns `none` on it), the handler answers
with the normal 200-path response, the row is returned with `NULL`
(`none`) `recency_score`, and its composite score is `NULL`, which
participates in the `ORDER BY` (placed below every number) instead of
raising an error. -/
theorem c6_null_score_participates :
    (getFeed ⟨⟨[], [⟨1, 1, "x", "garbage"⟩], []⟩, []⟩ (fun _ => none) 0 5 0 20).1
        = ⟨[⟨⟨1, 1, "x", "garbage"⟩, 0, none, 3 / 2⟩], some 1, false⟩ ∧
    rowSortKey ⟨⟨1, 1, "x", "garbage"⟩, 0, none, 3 / 2⟩ = none :=
  ⟨rfl, rfl⟩

/-- Counterexample to C7 as stated: inserting a user with an id that already
exists neither fails nor overwrites — the insert succeeds with 201, the old
row survives, a second row is appended, and a fetch by that id still returns
the original name (`user` has no key constraint). -/
theorem c7_duplicate_neither_fails_nor_overwrites :
    createUser ⟨⟨[(1, "A")], [], []⟩, []⟩ 1 "B"
      = (⟨201, "User added successfully"⟩, ⟨⟨[(1, "A"), (1, "B")], [], []⟩, []⟩) ∧
    getUser ⟨[(1, "A"), (1, "B")], [], []⟩ 1 = some "A" := by
  constructor <;> decide

/-- C7 amended: for every valid `(id, name)` (truthy, so accepted by
validation), `createUser` followed by fetching that user returns the same
name provided the id is fresh; a duplicate-id insertion succeeds (201) and
appends a second row while the fetch keeps returning the earlier row's name —
the insertion neither fails nor overwrites. -/
theorem c7_create_then_fetch (st : ServerState) (id : Int) (name : String)
    (hid : id ≠ 0) (hname : name ≠ "") :
    ((∀ u ∈ st.db.users, u.1 ≠ id) →
      (createUser st id name).1.status = 201 ∧
      getUser (createUser st id name).2.db id = some name) ∧
    (∀ name0 : String, getUser st.db id = some name0 →
      (createUser st id name).1.status = 201 ∧
      getUser (createUser st id name).2.db id = some name0 ∧
      (createUser st id name).2.db.users = st.db.users ++ [(id, name)]) := by
  have hval : validateUserInput (userBodyJ id name) ["id", "name"] = none := by
    simp [validateUserInput, userBodyJ, jsFalsy, JVal.falsy, hid, hname]
  constructor
  · intro hfresh
    unfold createUser
    rw [hval]
    exact ⟨rfl, getUser_append_fresh st.db.users st.db.posts st.db.comments id name hfresh⟩
  · intro name0 h0
    unfold createUser
    rw [hval]
    refine ⟨rfl, ?_, rfl⟩
    have := getUser_append_keeps st.db.users st.db.posts st.db.posts st.db.comments
      st.db.comments [(id, name)] id name0 (by simpa using h0)
    simpa using this

/-- Closed witness for C7 amended: creating user 1 named `A` in the empty
store and fetching user 1 returns `A`. -/
theorem c7_create_then_fetch_witness :
    (createUser ⟨⟨[], [], []⟩, []⟩ 1 "A").1.status = 201 ∧
    getUser (createUser ⟨⟨[], [], []⟩, []⟩ 1 "A").2.db 1 = some "A" :=
  (c7_create_then_fetch ⟨⟨[], [], []⟩, []⟩ 1 "A" (by decide) (by decide)).1
    (by intro u hu; simp at hu)

/-- Counterexample to C8 as stated: the `validateAndSanitize`-based
`POST /users` handler of the source file accepts a present-but-empty string
field — the request is answered 201 and the row is stored, not rejected with
400 `id is required`. -/
theorem c8_empty_string_not_rejected :
    createUserV2 ⟨[]⟩ (fun f =>
        if f = "id" then some (.str "") else
        if f = "name" then some (.str "x") else none)
      = (⟨201, "User added successfully"⟩, ⟨[("", "x")]⟩) := by
  decide

/-- C8 amended: under the `validateUserInput`-based handlers a required field
that is absent or falsy (`0`, the empty string, `false`, `null`) is reported
as `"<field> is required"` — the first such field in declaration order — and
each of the three create handlers then answers 400 with the untouched state,
before any store access.  Under `validateAndSanitize` only `undefined`/`null`
count as missing; a present `0` (or other non-string) in a string-typed field
is rejected as `"<field> must be a string"` instead, and a present empty
string passes (the counterexample). -/
theorem c8_falsy_validation :
    (∀ (data : String → Option JVal) (pre : List String) (f : String) (rest : List String),
        (∀ g ∈ pre, jsFalsy (data g) = false) → jsFalsy (data f) = true →
        validateUserInput data (pre ++ f :: rest) = some (f ++ " is required")) ∧
    (∀ (st : ServerState) (id : Int) (name : String) (e : String),
        validateUserInput (userBodyJ id name) ["id", "name"] = some e →
        createUser st id name = (⟨400, e⟩, st)) ∧
    (∀ (st : ServerState) (id user_id : Int) (content createdAt : String) (e : String),
        validateUserInput (postBodyJ id user_id content) ["id", "user_id", "content"]
            = some e →
        createPost st id user_id content createdAt = (⟨400, e⟩, st)) ∧
    (∀ (st : ServerState) (id post_id user_id : Int) (content createdAt : String)
        (e : String),
        validateUserInput (commentBodyJ id post_id user_id content)
            ["id", "post_id", "user_id", "content"] = some e →
        createComment st id post_id user_id content createdAt = (⟨400, e⟩, st)) ∧
    (∀ (data : String → Option JVal) (f : String) (t : FieldType)
        (rest : List (String × FieldType)), data f = some .jnull →
        (validateAndSanitize data ((f, t) :: rest)).1 = some (f ++ " is required")) ∧
    (∀ (data : String → Option JVal) (f : String) (rest : List (String × FieldType))
        (n : Int), data f = some (.num n) →
        (validateAndSanitize data ((f, FieldType.string) :: rest)).1
          = some (f ++ " must be a string")) := by
  refine ⟨validateUserInput_falsy, createUser_validation_error,
    createPost_validation_error, createComment_validation_error, ?_, ?_⟩
  · intro data f t rest h
    simp [validateAndSanitize, h]
  · intro data f rest n h
    simp [validateAndSanitize, typeError, h]

/-- Closed witness for C8 amended: `POST /users` with `id = 0` is rejected as
`id is required` with the state untouched. -/
theorem c8_falsy_validation_witness :
    createUser ⟨⟨[], [], []⟩, []⟩ 0 "x" = (⟨400, "id is required"⟩, ⟨⟨[], [], []⟩, []⟩) :=
  c8_falsy_validation.2.1 ⟨⟨[], [], []⟩, []⟩ 0 "x" "id is required" (by decide)

/-- C9: every entry of every feed batch has `relevance_score = 1.5`: the
`WHERE` clause filters candidates with the same `LIKE` pattern that the
relevance `CASE` tests, so the `ELSE 1` branch is unreachable for any
returned row. -/
theorem c9_relevance_always_max (db : DB) (jd : String → Option ℚ) (now : ℚ)
    (uid cursor : Int) (bs : Nat) (r : FeedRow)
    (h : r ∈ (buildFeedResponse db jd now uid cursor bs).feed) :
    r.relevance_score = 3 / 2 :=
  mem_fetchCandidates_relevance (mem_feed_mem_candidates h)

/-- Closed witness for C9: a concrete returned row carries relevance 1.5. -/
theorem c9_relevance_always_max_witness :
    (⟨⟨1, 1, "x", "t"⟩, 0, some (0 - 0), 3 / 2⟩ : FeedRow) ∈
      (buildFeedResponse ⟨[], [⟨1, 1, "x", "t"⟩], []⟩ (fun _ => some 0) 0 5 0 20).feed ∧
    (⟨⟨1, 1, "x", "t"⟩, 0, some (0 - 0), 3 / 2⟩ : FeedRow).relevance_score = 3 / 2 := by
  have hmem : (⟨⟨1, 1, "x", "t"⟩, 0, some (0 - 0), 3 / 2⟩ : FeedRow) ∈
      (buildFeedResponse ⟨[], [⟨1, 1, "x", "t"⟩], []⟩ (fun _ => some 0) 0 5 0 20).feed := by
    simp [show (buildFeedResponse ⟨[], [⟨1, 1, "x", "t"⟩], []⟩ (fun _ => some 0) 0 5 0 20).feed
        = [⟨⟨1, 1, "x", "t"⟩, 0, some (0 - 0), 3 / 2⟩] from rfl]
  exact ⟨hmem, c9_relevance_always_max _ _ _ _ _ _ _ hmem⟩

/-- Counterexample to C10 as stated: a `POST /comments` request whose four
fields pass validation is not inserted when its id collides with an existing
comment's primary key — the handler answers 500 and the state is
unchanged. -/
theorem c10_duplicate_comment_id_500 :
    createComment ⟨⟨[], [], [⟨1, 0, 0, "c", "t"⟩]⟩, []⟩ 1 99 99 "x" "t2"
      = (⟨500, "Failed to create comment"⟩, ⟨⟨[], [], [⟨1, 0, 0, "c", "t"⟩]⟩, []⟩) := by
  decide

/-- C10 amended: `POST /comments` performs no existence check on `post_id` or
`user_id`: every validation-passing request whose comment id is fresh is
inserted and answered 201 even when `post_id`/`user_id` reference no existing
row, and the endpoint never returns 404 on any input. -/
theorem c10_no_existence_check (st : ServerState) (id post_id user_id : Int)
    (content createdAt : String)
    (hid : id ≠ 0) (hpid : post_id ≠ 0) (huid : user_id ≠ 0) (hcontent : content ≠ "")
    (hfresh : ∀ c ∈ st.db.comments, c.id ≠ id) :
    (createComment st id post_id user_id content createdAt).1
        = ⟨201, "Comment created successfully"⟩ ∧
    (createComment st id post_id user_id content createdAt).2.db.comments
        = st.db.comments ++ [⟨id, post_id, user_id, content, createdAt⟩] ∧
    ∀ (st' : ServerState) (id' post_id' user_id' : Int) (content' createdAt' : String),
      (createComment st' id' post_id' user_id' content' createdAt').1.status ≠ 404 := by
  have hval : validateUserInput (commentBodyJ id post_id user_id content)
      ["id", "post_id", "user_id", "content"] = none := by
    simp [validateUserInput, commentBodyJ, jsFalsy, JVal.falsy, hid, hpid, huid, hcontent]
  have hdup : (st.db.comments.any fun c => c.id == id) = false := by
    rw [List.any_eq_false]
    intro c hcmem
    simp [hfresh c hcmem]
  refine ⟨?_, ?_, ?_⟩
  · unfold createComment
    rw [hval, hdup]
    rfl
  · unfold createComment
    rw [hval, hdup]
    rfl
  · intro st' id' post_id' user_id' content' createdAt'
    unfold createComment
    split
    · simp
    · split <;> simp

/-- Closed witness for C10 amended: a comment referencing post 99 and user 99
— neither exists in the empty store — is created with 201. -/
theorem c10_no_existence_check_witness :
    (createComment ⟨⟨[], [], []⟩, []⟩ 1 99 99 "x" "t").1
        = ⟨201, "Comment created successfully"⟩ ∧
    (createComment ⟨⟨[], [], []⟩, []⟩ 1 99 99 "x" "t").2.db.comments
        = [⟨1, 99, 99, "x", "t"⟩] := by
  have h := c10_no_existence_check ⟨⟨[], [], []⟩, []⟩ 1 99 99 "x" "t"
    (by decide) (by decide) (by decide) (by decide) (by intro c hc; simp at hc)
  exact ⟨h.1, h.2.1⟩

end FeedSvc
